import Mathlib

/-!
Shallow embedding of the core of the `mep-digital-twin` chiller
digital-twin repository, covering:

* `src/core/validators.py` — the `PhysicsGuard` physical-plausibility
  validation layer (`ValidationSeverity`, `ValidationIssue`,
  `ValidationResult`, `PhysicsGuard.validate` and its rule families);
* `src/core/physics.py` — the `PhysicsCalculator` derived-metric
  functions (`calculate_cooling_tons`, `calculate_kw_per_ton`,
  `calculate_approach_temperature`, `calculate_cop`);
* `src/core/health_score.py` — the `HealthScoreEngine` weighted
  health-scoring engine;
* `src/engine/generator.py` / `src/engine/failure_scenarios.py` — the
  failure-scenario application step of `ChillerDataGenerator`.

Python floats are modelled as exact rationals (`ℚ`); `round(x, n)` is
modelled as decimal round-half-even (`pyRound`).  Absent dictionary
keys are modelled as `none` in an `Option`-valued record; `d.get(k, 0)`
becomes `(field).getD 0`.
-/

/-- Decimal round-half-even, the idealisation of Python's `round`
with `ndigits = None` (which returns an `int`). -/
def pyRound (x : ℚ) : ℤ :=
  let f : ℤ := ⌊x⌋
  let frac : ℚ := x - f
  if frac < 1/2 then f
  else if 1/2 < frac then f + 1
  else if f % 2 = 0 then f else f + 1

/-- Python `round(x, 2)` on our rational model. -/
def round2 (x : ℚ) : ℚ := (pyRound (x * 100) : ℚ) / 100

/-- Python `round(x, 3)` on our rational model. -/
def round3 (x : ℚ) : ℚ := (pyRound (x * 1000) : ℚ) / 1000

/-- Python's builtin `max` on two numbers. -/
def pyMax (a b : ℚ) : ℚ := if a < b then b else a

/-- Python's builtin `min` on two numbers. -/
def pyMin (a b : ℚ) : ℚ := if b < a then b else a

/-- Python's builtin `abs`. -/
def pyAbs (a : ℚ) : ℚ := if a < 0 then -a else a

/-! ## `src/core/validators.py` -/

/-- `ValidationSeverity` enum from `validators.py`. -/
inductive ValidationSeverity where
  | ERROR
  | WARNING
  | INFO
deriving DecidableEq, Repr

/-- `ValidationIssue` dataclass from `validators.py`. -/
structure ValidationIssue where
  severity : ValidationSeverity
  rule_name : String
  message : String
  metric_name : Option String := none
  actual_value : Option ℚ := none
  expected_range : Option String := none
  recommendation : Option String := none
deriving DecidableEq, Repr

/-- `ValidationResult` dataclass from `validators.py`. -/
structure ValidationResult where
  is_valid : Bool
  status : String
  issues : List ValidationIssue := []
deriving DecidableEq, Repr

/-- A sensor reading: the dictionary keys that `PhysicsGuard` reads.
`none` models an absent key ("not measured"). -/
structure Reading where
  chw_supply_temp : Option ℚ := none
  chw_return_temp : Option ℚ := none
  cdw_inlet_temp : Option ℚ := none
  cdw_outlet_temp : Option ℚ := none
  ambient_temp : Option ℚ := none
  vibration_rms : Option ℚ := none
  power_kw : Option ℚ := none
  load_percent : Option ℚ := none
  kw_per_ton : Option ℚ := none
  approach_temp : Option ℚ := none
  phase_imbalance : Option ℚ := none
  delta_t : Option ℚ := none
  current_r : Option ℚ := none
  current_y : Option ℚ := none
  current_b : Option ℚ := none
  runtime_hours : Option ℚ := none
deriving DecidableEq, Repr

/-- `data.get(name)` for the metric names used by the typical-range
and current-bound loops. -/
def Reading.get (data : Reading) (name : String) : Option ℚ :=
  if name = "chw_supply_temp" then data.chw_supply_temp
  else if name = "chw_return_temp" then data.chw_return_temp
  else if name = "cdw_inlet_temp" then data.cdw_inlet_temp
  else if name = "cdw_outlet_temp" then data.cdw_outlet_temp
  else if name = "ambient_temp" then data.ambient_temp
  else if name = "vibration_rms" then data.vibration_rms
  else if name = "power_kw" then data.power_kw
  else if name = "load_percent" then data.load_percent
  else if name = "kw_per_ton" then data.kw_per_ton
  else if name = "approach_temp" then data.approach_temp
  else if name = "phase_imbalance" then data.phase_imbalance
  else if name = "delta_t" then data.delta_t
  else if name = "current_r" then data.current_r
  else if name = "current_y" then data.current_y
  else if name = "current_b" then data.current_b
  else if name = "runtime_hours" then data.runtime_hours
  else none

namespace PhysicsGuard

/-- `PhysicsGuard._validate_thermal_directionality`. -/
def validate_thermal_directionality (data : Reading) : List ValidationIssue :=
  (match data.chw_supply_temp, data.chw_return_temp with
   | some chw_supply, some chw_return =>
     if chw_return ≤ chw_supply then
       [{ severity := .ERROR
          rule_name := "chw_thermal_direction"
          message := "Chilled water return must be warmer than supply (heat is absorbed from building)"
          metric_name := some "chw_return_temp"
          actual_value := some chw_return
          expected_range := some ("> " ++ toString chw_supply ++ " C (supply temp)")
          recommendation := some "Check CHW temperature sensor wiring - supply and return may be swapped" }]
     else []
   | _, _ => []) ++
  (match data.cdw_inlet_temp, data.cdw_outlet_temp with
   | some cdw_inlet, some cdw_outlet =>
     if cdw_outlet ≤ cdw_inlet then
       [{ severity := .ERROR
          rule_name := "cdw_thermal_direction"
          message := "Condenser water outlet must be warmer than inlet (heat is rejected to cooling tower)"
          metric_name := some "cdw_outlet_temp"
          actual_value := some cdw_outlet
          expected_range := some ("> " ++ toString cdw_inlet ++ " C (inlet temp)")
          recommendation := some "Check CDW temperature sensor wiring - inlet and outlet may be swapped" }]
     else []
   | _, _ => [])

/-- `PhysicsGuard._validate_absolute_bounds`. -/
def validate_absolute_bounds (data : Reading) : List ValidationIssue :=
  (match data.load_percent with
   | some load_percent =>
     if load_percent < 0 then
       [{ severity := .ERROR
          rule_name := "load_percent_negative"
          message := "Load percent cannot be negative"
          metric_name := some "load_percent"
          actual_value := some load_percent
          expected_range := some "0 - 100"
          recommendation := some "Check load calculation logic or sensor" }]
     else if 100 < load_percent then
       [{ severity := .ERROR
          rule_name := "load_percent_over_100"
          message := "Load percent cannot exceed 100 percent"
          metric_name := some "load_percent"
          actual_value := some load_percent
          expected_range := some "0 - 100"
          recommendation := some "Check load calculation - may need recalibration to actual capacity" }]
     else []
   | none => []) ++
  (match data.power_kw with
   | some power_kw =>
     if power_kw < 0 then
       [{ severity := .ERROR
          rule_name := "power_non_negative"
          message := "Power consumption cannot be negative"
          metric_name := some "power_kw"
          actual_value := some power_kw
          expected_range := some ">= 0 kW"
          recommendation := some "Check power meter wiring and CT orientation" }]
     else []
   | none => []) ++
  (match data.vibration_rms with
   | some vibration_rms =>
     if vibration_rms < 0 then
       [{ severity := .ERROR
          rule_name := "vibration_non_negative"
          message := "Vibration RMS cannot be negative"
          metric_name := some "vibration_rms"
          actual_value := some vibration_rms
          expected_range := some ">= 0 mm/s"
          recommendation := some "Check vibration sensor signal processing" }]
     else []
   | none => []) ++
  (["current_r", "current_y", "current_b"].flatMap (fun phase =>
    match data.get phase with
    | some current =>
      if current < 0 then
        [{ severity := .ERROR
           rule_name := phase ++ "_non_negative"
           message := "Current (" ++ phase ++ ") cannot be negative"
           metric_name := some phase
           actual_value := some current
           expected_range := some ">= 0 A"
           recommendation := some "Check current transformer wiring and polarity" }]
      else []
    | none => [])) ++
  (match data.runtime_hours with
   | some runtime_hours =>
     if runtime_hours < 0 then
       [{ severity := .ERROR
          rule_name := "runtime_non_negative"
          message := "Runtime hours cannot be negative"
          metric_name := some "runtime_hours"
          actual_value := some runtime_hours
          expected_range := some ">= 0 hours"
          recommendation := some "Check runtime counter logic" }]
     else []
   | none => [])

/-- `PhysicsGuard._validate_derived_metrics`. -/
def validate_derived_metrics (data : Reading) : List ValidationIssue :=
  (match data.approach_temp with
   | some approach_temp =>
     if approach_temp < 0 then
       [{ severity := .ERROR
          rule_name := "approach_non_negative"
          message := "Approach temperature cannot be negative"
          metric_name := some "approach_temp"
          actual_value := some approach_temp
          expected_range := some ">= 0 C"
          recommendation := some "Refrigerant saturation temp calculation may be incorrect, or CDW temp sensor issue" }]
     else []
   | none => []) ++
  (match data.delta_t with
   | some delta_t =>
     let power_kw := data.power_kw.getD 0
     if 10 < power_kw then
       if delta_t ≤ 0 then
         [{ severity := .ERROR
            rule_name := "delta_t_positive_when_running"
            message := "Delta-T must be positive when chiller is running"
            metric_name := some "delta_t"
            actual_value := some delta_t
            expected_range := some "> 0 C when running"
            recommendation := some "Check temperature sensors or verify chiller is actually producing cooling" }]
       else []
     else []
   | none => [])

/-- `PhysicsGuard._validate_operational_consistency`.  Note that both
`power_kw` and `vibration_rms` are read with `data.get(key, 0)`, so an
absent key behaves as `0` here. -/
def validate_operational_consistency (data : Reading) : List ValidationIssue :=
  let power_kw := data.power_kw.getD 0
  let vibration := data.vibration_rms.getD 0
  (match data.load_percent with
   | some load_percent =>
     if power_kw = 0 ∧ 10 < load_percent then
       [{ severity := .WARNING
          rule_name := "power_load_consistency"
          message := "Load percent is high but power consumption is zero"
          metric_name := some "load_percent"
          actual_value := some load_percent
          expected_range := some "< 10 percent when power is 0"
          recommendation := some "Verify power meter is reading correctly, or load calculation has correct inputs" }]
     else []
   | none => []) ++
  (if power_kw = 0 ∧ 5 < vibration then
     [{ severity := .WARNING
        rule_name := "power_vibration_consistency"
        message := "High vibration detected but power is zero (chiller should be off)"
        metric_name := some "vibration_rms"
        actual_value := some vibration
        expected_range := some "< 1.0 mm/s when power is 0"
        recommendation := some "Check if vibration sensor is picking up external sources, or power meter issue" }]
   else [])

/-- `self.typical_ranges` from `PhysicsGuard.__init__`, in dict
insertion order. -/
def typical_ranges : List (String × ℚ × ℚ) :=
  [("chw_supply_temp", 4, 12),
   ("chw_return_temp", 8, 18),
   ("cdw_inlet_temp", 18, 38),
   ("cdw_outlet_temp", 23, 45),
   ("ambient_temp", -10, 50),
   ("vibration_rms", 0, 15),
   ("power_kw", 0, 2000),
   ("load_percent", 0, 100),
   ("kw_per_ton", 7/20, 3/2),
   ("approach_temp", 1/2, 10),
   ("phase_imbalance", 0, 15),
   ("delta_t", 3/2, 12)]

/-- `PhysicsGuard._validate_typical_ranges`. -/
def validate_typical_ranges (data : Reading) : List ValidationIssue :=
  (typical_ranges.flatMap (fun entry =>
    let metric_name := entry.1
    let min_val := entry.2.1
    let max_val := entry.2.2
    match data.get metric_name with
    | none => []
    | some value =>
      if value < min_val ∨ max_val < value then
        let deviation_factor : ℚ :=
          if value < min_val then (min_val - value) / pyMax (pyAbs min_val) 1
          else (value - max_val) / pyMax (pyAbs max_val) 1
        let severity : ValidationSeverity :=
          if 1/2 < deviation_factor then .WARNING else .INFO
        [{ severity := severity
           rule_name := metric_name ++ "_typical_range"
           message := metric_name ++ " is outside typical operating range"
           metric_name := some metric_name
           actual_value := some (round2 value)
           expected_range := some (toString min_val ++ " - " ++ toString max_val)
           recommendation := some ("Verify " ++ metric_name ++ " sensor accuracy and operating conditions") }]
      else [])) ++
  (match data.kw_per_ton with
   | some kw_per_ton =>
     if 0 < kw_per_ton then
       if kw_per_ton < 7/20 then
         [{ severity := .WARNING
            rule_name := "kw_per_ton_too_efficient"
            message := "kW/ton is suspiciously low - efficiency appears too good to be true"
            metric_name := some "kw_per_ton"
            actual_value := some (round3 kw_per_ton)
            expected_range := some "0.5 - 1.2 kW/ton typical"
            recommendation := some "Verify power meter accuracy and flow sensor calibration" }]
       else if 3/2 < kw_per_ton then
         [{ severity := .WARNING
            rule_name := "kw_per_ton_very_poor"
            message := "kW/ton is very high - poor efficiency"
            metric_name := some "kw_per_ton"
            actual_value := some (round3 kw_per_ton)
            expected_range := some "0.5 - 1.2 kW/ton typical"
            recommendation := some "Investigate chiller performance - possible fouling, refrigerant, or mechanical issues" }]
       else []
     else []
   | none => [])

/-- The issue list assembled at the start of `PhysicsGuard.validate`. -/
def allIssues (data : Reading) : List ValidationIssue :=
  validate_thermal_directionality data ++
  validate_absolute_bounds data ++
  validate_derived_metrics data ++
  validate_operational_consistency data ++
  validate_typical_ranges data

/-- The in-place severity promotion `w.severity = ValidationSeverity.ERROR`
performed on each warning in strict mode, as a function on issues. -/
def promoteWarning (i : ValidationIssue) : ValidationIssue :=
  if i.severity = .WARNING then { i with severity := .ERROR } else i

/-- The aggregation/classification tail of `PhysicsGuard.validate`:
errors reject; warnings reject in strict mode (after promotion) and
otherwise accept with warnings; else accept. -/
def classify (strict_mode : Bool) (issues : List ValidationIssue) : ValidationResult :=
  let errors := issues.filter (fun i => i.severity == .ERROR)
  let warnings := issues.filter (fun i => i.severity == .WARNING)
  if errors ≠ [] then
    { is_valid := false, status := "rejected", issues := issues }
  else if warnings ≠ [] then
    if strict_mode then
      { is_valid := false, status := "rejected", issues := issues.map promoteWarning }
    else
      { is_valid := true, status := "accepted_with_warnings", issues := issues }
  else
    { is_valid := true, status := "accepted", issues := issues }

/-- `PhysicsGuard.validate` for a guard constructed with
`strict_mode`. -/
def validate (strict_mode : Bool) (data : Reading) : ValidationResult :=
  classify strict_mode (allIssues data)

end PhysicsGuard

/-! ## `src/core/physics.py` -/

namespace PhysicsCalculator

/-- `PhysicsConstants.DEFAULT_CHW_FLOW_GPM`. -/
def DEFAULT_CHW_FLOW_GPM : ℚ := 1000

/-- `PhysicsConstants.GPM_FACTOR`. -/
def GPM_FACTOR : ℚ := 500

/-- `PhysicsConstants.BTU_PER_TON_HOUR`. -/
def BTU_PER_TON_HOUR : ℚ := 12000

/-- `PhysicsConstants.KW_PER_TON` (3.517). -/
def KW_PER_TON : ℚ := 3517/1000

/-- `PhysicsConstants.REFRIGERANT_SAT_OFFSET`. -/
def REFRIGERANT_SAT_OFFSET : ℚ := 3

/-- `PhysicsCalculator.calculate_delta_t`. -/
def calculate_delta_t (chw_return_temp chw_supply_temp : ℚ) : ℚ :=
  chw_return_temp - chw_supply_temp

/-- `PhysicsCalculator.calculate_cooling_tons`. -/
def calculate_cooling_tons (delta_t : ℚ) (chw_flow_gpm : Option ℚ) : ℚ :=
  let flow := chw_flow_gpm.getD DEFAULT_CHW_FLOW_GPM
  let delta_t_fahrenheit := delta_t * 9 / 5
  let tons := flow * delta_t_fahrenheit * GPM_FACTOR / BTU_PER_TON_HOUR
  pyMax tons (1/10)

/-- `PhysicsCalculator.calculate_kw_per_ton`. -/
def calculate_kw_per_ton (power_kw delta_t : ℚ) (chw_flow_gpm : Option ℚ) : ℚ :=
  if power_kw ≤ 0 then 0
  else
    let tons := calculate_cooling_tons delta_t chw_flow_gpm
    if tons < 1/10 then 0
    else power_kw / tons

/-- `PhysicsCalculator.calculate_approach_temperature`. -/
def calculate_approach_temperature (cdw_outlet_temp : ℚ) (refrigerant_sat_temp : Option ℚ) : ℚ :=
  let sat := refrigerant_sat_temp.getD (cdw_outlet_temp + REFRIGERANT_SAT_OFFSET)
  pyMax (sat - cdw_outlet_temp) 0

/-- `PhysicsCalculator.calculate_cop`. -/
def calculate_cop (delta_t power_kw : ℚ) (chw_flow_gpm : Option ℚ) : ℚ :=
  if power_kw ≤ 0 then 0
  else
    let tons := calculate_cooling_tons delta_t chw_flow_gpm
    let cooling_kw := tons * KW_PER_TON
    cooling_kw / power_kw

end PhysicsCalculator

/-! ## `src/core/health_score.py` -/

/-- `HealthCategory` enum from `health_score.py`. -/
inductive HealthCategory where
  | EXCELLENT
  | GOOD
  | FAIR
  | POOR
  | CRITICAL
deriving DecidableEq, Repr

/-- `MetricScore` dataclass from `health_score.py`. -/
structure MetricScore where
  metric_name : String
  raw_value : ℚ
  normalized_score : ℚ
  weighted_contribution : ℚ
  weight : ℚ
  status : String
  message : String
deriving DecidableEq, Repr

/-- `HealthScore` dataclass from `health_score.py`. -/
structure HealthScore where
  overall_score : ℚ
  category : HealthCategory
  breakdown : List MetricScore
  primary_concern : Option String := none
  recommendations : List String := []
deriving DecidableEq, Repr

namespace HealthScoreEngine

/-- The default weight map from `HealthScoreEngine.__init__`, in dict
insertion order. -/
def defaultWeights : List (String × ℚ) :=
  [("vibration_rms", 7/20),
   ("approach_temp", 1/4),
   ("phase_imbalance", 1/5),
   ("kw_per_ton", 3/20),
   ("delta_t", 1/20)]

/-- `HealthScoreEngine._score_lower_better`: piecewise-linear banding
for metrics where lower values are better. -/
def score_lower_better (value excellent good fair poor : ℚ)
    (unit description : String) : ℚ × String × String :=
  let result : ℚ × String × String :=
    if value ≤ excellent then
      (if 0 < excellent then 95 + 5 * (1 - value / excellent) else 100,
       "excellent", "Excellent " ++ description ++ ": " ++ toString value ++ " " ++ unit)
    else if value ≤ good then
      let progress := (value - excellent) / (good - excellent)
      (90 - 15 * progress,
       "good", "Good " ++ description ++ ": " ++ toString value ++ " " ++ unit)
    else if value ≤ fair then
      let progress := (value - good) / (fair - good)
      (75 - 20 * progress,
       "fair", "Fair " ++ description ++ ": " ++ toString value ++ " " ++ unit ++ " - Monitor closely")
    else if value ≤ poor then
      let progress := (value - fair) / (poor - fair)
      (55 - 25 * progress,
       "poor", "Poor " ++ description ++ ": " ++ toString value ++ " " ++ unit ++ " - Action recommended")
    else
      let overage := if 0 < poor then (value - poor) / poor else 1
      (pyMax 0 (30 - 30 * pyMin overage 1),
       "critical", "Critical " ++ description ++ ": " ++ toString value ++ " " ++ unit ++ " - Immediate action required")
  (pyMin 100 (pyMax 0 result.1), result.2.1, result.2.2)

/-- `HealthScoreEngine._score_target_range`: banding driven by the
absolute deviation from a target value. -/
def score_target_range (value target excellent_band good_band fair_band poor_band : ℚ)
    (unit description : String) : ℚ × String × String :=
  let deviation := pyAbs (value - target)
  let result : ℚ × String × String :=
    if deviation ≤ excellent_band then
      (95 + 5 * (1 - deviation / excellent_band),
       "excellent", "Excellent " ++ description ++ ": " ++ toString value ++ " " ++ unit)
    else if deviation ≤ good_band then
      let progress := (deviation - excellent_band) / (good_band - excellent_band)
      (90 - 15 * progress,
       "good", "Good " ++ description ++ ": " ++ toString value ++ " " ++ unit)
    else if deviation ≤ fair_band then
      let progress := (deviation - good_band) / (fair_band - good_band)
      (75 - 20 * progress,
       "fair", "Fair " ++ description ++ ": " ++ toString value ++ " " ++ unit ++ " - Outside optimal range")
    else if deviation ≤ poor_band then
      let progress := (deviation - fair_band) / (poor_band - fair_band)
      (55 - 25 * progress,
       "poor", "Poor " ++ description ++ ": " ++ toString value ++ " " ++ unit ++ " - Investigate")
    else
      let overage := (deviation - poor_band) / poor_band
      (pyMax 0 (30 - 30 * pyMin overage 1),
       "critical", "Critical " ++ description ++ ": " ++ toString value ++ " " ++ unit ++ " - System issue")
  (pyMin 100 (pyMax 0 result.1), result.2.1, result.2.2)

/-- `HealthScoreEngine._score_metric`, with the default threshold
table from `__init__` inlined per metric name. -/
def score_metric (metric_name : String) (value : ℚ) : ℚ × String × String :=
  if metric_name = "vibration_rms" then
    score_lower_better value 2 4 7 11 "mm/s" "Mechanical vibration level"
  else if metric_name = "approach_temp" then
    score_lower_better value 2 3 (9/2) 6 "C" "Condenser heat transfer efficiency"
  else if metric_name = "phase_imbalance" then
    score_lower_better value 1 2 (7/2) 5 "percent" "Electrical supply balance"
  else if metric_name = "kw_per_ton" then
    score_lower_better value (11/20) (7/10) (17/20) 1 "kW/ton" "Energy efficiency"
  else if metric_name = "delta_t" then
    score_target_range value (11/2) 1 2 (7/2) 5 "C" "Chilled water temperature differential"
  else
    (50, "unknown", "No thresholds defined for " ++ metric_name)

/-- `HealthScoreEngine._get_category`. -/
def get_category (score : ℚ) : HealthCategory :=
  if 90 ≤ score then .EXCELLENT
  else if 75 ≤ score then .GOOD
  else if 55 ≤ score then .FAIR
  else if 30 ≤ score then .POOR
  else .CRITICAL

/-- `HealthScoreEngine._get_recommendations` looked up from the static
`recommendations_db`; only fair/poor/critical statuses are populated. -/
def get_recommendations (metric_name status : String) : List String :=
  let fallback := ["Monitor and investigate as needed"]
  if metric_name = "vibration_rms" then
    if status = "fair" then
      ["Schedule vibration analysis within 2 weeks",
       "Check bearing lubrication levels",
       "Inspect visible components for looseness"]
    else if status = "poor" then
      ["Schedule vibration analysis within 1 week",
       "Check bearing condition - listen for unusual sounds",
       "Verify coupling alignment",
       "Review maintenance history for recent changes"]
    else if status = "critical" then
      ["URGENT: Reduce load immediately",
       "Schedule emergency inspection within 24-48 hours",
       "Prepare for potential bearing replacement",
       "Check for loose mounting bolts or foundation issues",
       "Document vibration readings for trending"]
    else fallback
  else if metric_name = "approach_temp" then
    if status = "fair" then
      ["Schedule condenser inspection within 1 month",
       "Check condenser water flow rate",
       "Verify cooling tower performance"]
    else if status = "poor" then
      ["Schedule condenser tube cleaning within 2 weeks",
       "Check for scaling or biological growth",
       "Verify water treatment program effectiveness",
       "Check refrigerant charge"]
    else if status = "critical" then
      ["URGENT: Condenser severely fouled",
       "Schedule immediate tube cleaning",
       "Check for non-condensables (air) in system",
       "Verify refrigerant charge and purity",
       "Estimated energy waste: 15-25 percent"]
    else fallback
  else if metric_name = "phase_imbalance" then
    if status = "fair" then
      ["Check utility power quality",
       "Inspect main electrical connections",
       "Verify power factor correction equipment"]
    else if status = "poor" then
      ["Schedule electrical inspection within 1 week",
       "Check for loose terminal connections",
       "Verify all three phases at motor terminals",
       "Check for single-phasing protection"]
    else if status = "critical" then
      ["URGENT: Motor damage risk - reduce load",
       "Immediate electrical inspection required",
       "Check for single-phasing condition",
       "Verify utility power quality",
       "Motor life may be reduced by 50 percent or more at this imbalance"]
    else fallback
  else if metric_name = "kw_per_ton" then
    if status = "fair" then
      ["Compare to baseline/design efficiency",
       "Check operating conditions vs design",
       "Review control sequences"]
    else if status = "poor" then
      ["Full efficiency audit recommended",
       "Check refrigerant charge level",
       "Verify all heat exchangers are clean",
       "Review control system operation"]
    else if status = "critical" then
      ["Major efficiency degradation",
       "Full diagnostic inspection required",
       "Check compressor condition",
       "Verify refrigerant charge and oil level",
       "Estimated excess energy cost: significant"]
    else fallback
  else if metric_name = "delta_t" then
    if status = "fair" then
      ["Check chilled water flow rate",
       "Verify control valve operation",
       "Review building load distribution"]
    else if status = "poor" then
      ["Check pump operation and speed",
       "Verify no air in chilled water system",
       "Check for bypass or three-way valve issues",
       "Review chilled water reset schedule"]
    else if status = "critical" then
      ["System balance issue",
       "Check all pumps for proper operation",
       "Verify no major leaks or bypasses",
       "Review entire chilled water distribution"]
    else fallback
  else fallback

/-- The `MetricScore` record built in the scoring loop of
`HealthScoreEngine.calculate` for one present metric. -/
def mkMetricScore (metric_name : String) (weight value : ℚ) : MetricScore :=
  let s := score_metric metric_name value
  { metric_name := metric_name
    raw_value := value
    normalized_score := s.1
    weighted_contribution := s.1 * weight
    weight := weight
    status := s.2.1
    message := s.2.2 }

/-- The breakdown list built by the scoring loop of
`HealthScoreEngine.calculate`: one entry per weighted metric present
in the input, in weight-map order; missing metrics are skipped. -/
def scoreBreakdown (weights : List (String × ℚ)) (metrics : String → Option ℚ) :
    List MetricScore :=
  weights.filterMap (fun nw =>
    (metrics nw.1).map (fun value => mkMetricScore nw.1 nw.2 value))

/-- Stable insertion of a `MetricScore` into a list sorted ascending
by `normalized_score` (the element being inserted precedes equal
scores, matching Python's stable `sorted`). -/
def insertByScore (m : MetricScore) : List MetricScore → List MetricScore
  | [] => [m]
  | x :: xs =>
    if m.normalized_score ≤ x.normalized_score then m :: x :: xs
    else x :: insertByScore m xs

/-- Stable sort ascending by `normalized_score`, modelling
`sorted(breakdown, key=lambda x: x.normalized_score)`. -/
def sortByScore : List MetricScore → List MetricScore
  | [] => []
  | m :: ms => insertByScore m (sortByScore ms)

/-- `HealthScoreEngine.calculate` with an explicit weight map (the
engine's only configurable state) and the metrics dictionary as a
partial map. -/
def calculate (weights : List (String × ℚ)) (metrics : String → Option ℚ) :
    HealthScore :=
  let breakdown := scoreBreakdown weights metrics
  let weighted_sum := (breakdown.map (fun m => m.weighted_contribution)).sum
  let total_weight := (breakdown.map (fun m => m.weight)).sum
  let overall_score := if 0 < total_weight then weighted_sum / total_weight else 50
  let category := get_category overall_score
  let breakdown_sorted := sortByScore breakdown
  match breakdown_sorted with
  | [] =>
    { overall_score := overall_score, category := category, breakdown := []
      primary_concern := none, recommendations := [] }
  | worst :: _ =>
    if worst.normalized_score < 70 then
      { overall_score := overall_score, category := category
        breakdown := breakdown_sorted
        primary_concern := some worst.metric_name
        recommendations := get_recommendations worst.metric_name worst.status }
    else
      { overall_score := overall_score, category := category
        breakdown := breakdown_sorted
        primary_concern := none, recommendations := [] }

end HealthScoreEngine

/-! ## `src/engine/failure_scenarios.py` and `src/engine/generator.py` -/

/-- `FailureType` enum from `failure_scenarios.py`. -/
inductive FailureType where
  | HEALTHY
  | TUBE_FOULING
  | BEARING_WEAR
  | REFRIGERANT_LEAK
  | ELECTRICAL_ISSUE
  | LOW_LOAD_INEFFICIENCY
  | POST_MAINTENANCE_MISALIGNMENT

/-- A generated sensor value: the base-data dictionary holds floats
and one int (`start_stop_cycles`). -/
inductive Value where
  | vInt (n : ℤ)
  | vFloat (q : ℚ)
deriving DecidableEq, Repr

/-- `FailureScenario` dataclass from `failure_scenarios.py`.  The
`modifiers` dict maps metric names to progression functions
`(base_value, progress, day) -> modified_value`. -/
structure FailureScenario where
  name : String
  failure_type : FailureType
  description : String
  duration_days : ℕ
  story : String
  modifiers : List (String × (ℚ → ℚ → ℕ → ℚ)) := []

/-- `FailureScenario.apply_modifier`. -/
def FailureScenario.apply_modifier (s : FailureScenario) (metric_name : String)
    (base_value progress : ℚ) (day : ℕ) : ℚ :=
  match s.modifiers.lookup metric_name with
  | some m => m base_value progress day
  | none => base_value

namespace ChillerDataGenerator

/-- `ChillerDataGenerator._apply_scenario`: every metric of the base
data that has a modifier is replaced by the modifier output, rounded —
`int(round(v))` for int-typed values, `round(v, 2)` for floats. -/
def apply_scenario (s : FailureScenario) (data : List (String × Value))
    (progress : ℚ) (scenario_day : ℕ) : List (String × Value) :=
  data.map (fun kv =>
    match s.modifiers.lookup kv.1 with
    | none => kv
    | some _ =>
      match kv.2 with
      | .vInt n =>
        (kv.1, .vInt (pyRound (s.apply_modifier kv.1 (n : ℚ) progress scenario_day)))
      | .vFloat q =>
        (kv.1, .vFloat (round2 (s.apply_modifier kv.1 q progress scenario_day))))

/-- The scenario-application step of
`ChillerDataGenerator.generate_reading`: given the base data produced
by `_generate_base_values` (the random draws made explicit as an
input), apply the attached scenario when `day_number` falls in the
active window. -/
def applyScenarioForDay (scenario : Option FailureScenario)
    (scenario_start_day day_number : ℕ)
    (data : List (String × Value)) : List (String × Value) :=
  match scenario with
  | none => data
  | some s =>
    if scenario_start_day ≤ day_number then
      let scenario_day := day_number - scenario_start_day
      if scenario_day < s.duration_days then
        let progress : ℚ := (scenario_day : ℚ) / (s.duration_days : ℚ)
        apply_scenario s data progress scenario_day
      else data
    else data

end ChillerDataGenerator

/-! ## Helper lemmas about the validator -/

namespace PhysicsGuard

lemma filter_sev_ne_nil (issues : List ValidationIssue) (s : ValidationSeverity) :
    issues.filter (fun i => i.severity == s) ≠ [] ↔ ∃ i ∈ issues, i.severity = s := by
  constructor
  · intro h
    rcases List.exists_mem_of_ne_nil _ h with ⟨i, hi⟩
    rw [List.mem_filter] at hi
    exact ⟨i, hi.1, by simpa using hi.2⟩
  · rintro ⟨i, hmem, hs⟩ h
    have hin : i ∈ issues.filter (fun i => i.severity == s) :=
      List.mem_filter.mpr ⟨hmem, by simp [hs]⟩
    rw [h] at hin
    exact (List.not_mem_nil i) hin

lemma filter_sev_eq_nil (issues : List ValidationIssue) (s : ValidationSeverity)
    (h : ∀ i ∈ issues, i.severity ≠ s) :
    ¬ issues.filter (fun i => i.severity == s) ≠ [] := by
  intro hne
  rcases (filter_sev_ne_nil issues s).mp hne with ⟨i, hmem, hs⟩
  exact h i hmem hs

lemma classify_of_error (strict : Bool) (issues : List ValidationIssue)
    (h : ∃ i ∈ issues, i.severity = .ERROR) :
    classify strict issues =
      { is_valid := false, status := "rejected", issues := issues } := by
  unfold classify
  rw [if_pos ((filter_sev_ne_nil issues .ERROR).mpr h)]

lemma classify_warn_strict (issues : List ValidationIssue)
    (hE : ∀ i ∈ issues, i.severity ≠ .ERROR)
    (hW : ∃ i ∈ issues, i.severity = .WARNING) :
    classify true issues =
      { is_valid := false, status := "rejected", issues := issues.map promoteWarning } := by
  unfold classify
  rw [if_neg (filter_sev_eq_nil issues .ERROR hE),
    if_pos ((filter_sev_ne_nil issues .WARNING).mpr hW), if_pos rfl]

lemma classify_warn_lenient (issues : List ValidationIssue)
    (hE : ∀ i ∈ issues, i.severity ≠ .ERROR)
    (hW : ∃ i ∈ issues, i.severity = .WARNING) :
    classify false issues =
      { is_valid := true, status := "accepted_with_warnings", issues := issues } := by
  unfold classify
  rw [if_neg (filter_sev_eq_nil issues .ERROR hE),
    if_pos ((filter_sev_ne_nil issues .WARNING).mpr hW), if_neg (by simp)]

lemma classify_clean (strict : Bool) (issues : List ValidationIssue)
    (hE : ∀ i ∈ issues, i.severity ≠ .ERROR)
    (hW : ∀ i ∈ issues, i.severity ≠ .WARNING) :
    classify strict issues =
      { is_valid := true, status := "accepted", issues := issues } := by
  unfold classify
  rw [if_neg (filter_sev_eq_nil issues .ERROR hE),
    if_neg (filter_sev_eq_nil issues .WARNING hW)]

lemma promoteWarning_of_warning (i : ValidationIssue) (h : i.severity = .WARNING) :
    promoteWarning i = { i with severity := .ERROR } := by
  simp [promoteWarning, h]

lemma promoteWarning_of_not_warning (i : ValidationIssue) (h : i.severity ≠ .WARNING) :
    promoteWarning i = i := by
  simp [promoteWarning, h]

lemma map_promoteWarning_of_no_warning (issues : List ValidationIssue)
    (h : ∀ i ∈ issues, i.severity ≠ .WARNING) :
    issues.map promoteWarning = issues := by
  induction issues with
  | nil => rfl
  | cons a l ih =>
    simp only [List.map_cons]
    rw [promoteWarning_of_not_warning a (h a (List.mem_cons_self a l)),
      ih (fun i hi => h i (List.mem_cons_of_mem a hi))]

end PhysicsGuard

/-! ## Claim theorems for the validator -/

/-- C1 — for any reading with both CHW temperatures present and
`chw_return_temp ≤ chw_supply_temp`, `PhysicsGuard.validate` returns a
rejected verdict (`is_valid = false`) containing an error-severity
issue with rule name `chw_thermal_direction`; symmetrically for the
condenser-water pair and `cdw_thermal_direction`. -/
theorem C1_thermal_directionality (strict : Bool) (data : Reading) :
    (∀ s r, data.chw_supply_temp = some s → data.chw_return_temp = some r → r ≤ s →
      (PhysicsGuard.validate strict data).is_valid = false ∧
      (PhysicsGuard.validate strict data).status = "rejected" ∧
      ∃ i ∈ (PhysicsGuard.validate strict data).issues,
        i.severity = .ERROR ∧ i.rule_name = "chw_thermal_direction") ∧
    (∀ ci co, data.cdw_inlet_temp = some ci → data.cdw_outlet_temp = some co → co ≤ ci →
      (PhysicsGuard.validate strict data).is_valid = false ∧
      (PhysicsGuard.validate strict data).status = "rejected" ∧
      ∃ i ∈ (PhysicsGuard.validate strict data).issues,
        i.severity = .ERROR ∧ i.rule_name = "cdw_thermal_direction") := by
  constructor
  · intro s r hs hr hle
    have hiss : ∃ i ∈ PhysicsGuard.validate_thermal_directionality data,
        i.severity = .ERROR ∧ i.rule_name = "chw_thermal_direction" := by
      simp only [PhysicsGuard.validate_thermal_directionality, hs, hr, if_pos hle]
      exact ⟨_, List.mem_append_left _ (List.mem_cons_self _ _), rfl, rfl⟩
    obtain ⟨i, hmem, hsev, hrule⟩ := hiss
    have hall : i ∈ PhysicsGuard.allIssues data := by
      unfold PhysicsGuard.allIssues
      exact List.mem_append_left _ (List.mem_append_left _
        (List.mem_append_left _ (List.mem_append_left _ hmem)))
    have hrw := PhysicsGuard.classify_of_error strict _ ⟨i, hall, hsev⟩
    unfold PhysicsGuard.validate
    rw [hrw]
    exact ⟨rfl, rfl, i, hall, hsev, hrule⟩
  · intro ci co hi ho hle
    have hiss : ∃ i ∈ PhysicsGuard.validate_thermal_directionality data,
        i.severity = .ERROR ∧ i.rule_name = "cdw_thermal_direction" := by
      simp only [PhysicsGuard.validate_thermal_directionality, hi, ho, if_pos hle]
      exact ⟨_, List.mem_append_right _ (List.mem_cons_self _ _), rfl, rfl⟩
    obtain ⟨i, hmem, hsev, hrule⟩ := hiss
    have hall : i ∈ PhysicsGuard.allIssues data := by
      unfold PhysicsGuard.allIssues
      exact List.mem_append_left _ (List.mem_append_left _
        (List.mem_append_left _ (List.mem_append_left _ hmem)))
    have hrw := PhysicsGuard.classify_of_error strict _ ⟨i, hall, hsev⟩
    unfold PhysicsGuard.validate
    rw [hrw]
    exact ⟨rfl, rfl, i, hall, hsev, hrule⟩

/-- A reading with both thermal direction rules violated. -/
def readingThermalSwap : Reading :=
  { chw_supply_temp := some 12, chw_return_temp := some 6,
    cdw_inlet_temp := some 30, cdw_outlet_temp := some 25 }

/-- Witness for C1 at a concrete reading with swapped sensors. -/
theorem C1_thermal_directionality_witness :
    ((PhysicsGuard.validate false readingThermalSwap).is_valid = false ∧
     (PhysicsGuard.validate false readingThermalSwap).status = "rejected" ∧
     ∃ i ∈ (PhysicsGuard.validate false readingThermalSwap).issues,
       i.severity = .ERROR ∧ i.rule_name = "chw_thermal_direction") ∧
    ((PhysicsGuard.validate false readingThermalSwap).is_valid = false ∧
     (PhysicsGuard.validate false readingThermalSwap).status = "rejected" ∧
     ∃ i ∈ (PhysicsGuard.validate false readingThermalSwap).issues,
       i.severity = .ERROR ∧ i.rule_name = "cdw_thermal_direction") :=
  ⟨(C1_thermal_directionality false readingThermalSwap).1 12 6 rfl rfl (by norm_num),
   (C1_thermal_directionality false readingThermalSwap).2 30 25 rfl rfl (by norm_num)⟩

/-- C2 (amended) — the verdict classification invariant of
`PhysicsGuard.validate`: rejected iff the returned issues contain an
error; accepted-with-warnings iff they contain no error but a warning;
accepted iff neither; and in strict mode the warnings are promoted to
errors provided no error-severity issue was found (when an error is
already present the reading is rejected with its warnings left at
warning severity). -/
theorem C2_verdict_classification (strict : Bool) (data : Reading) :
    (((PhysicsGuard.validate strict data).status = "rejected" ∧
      (PhysicsGuard.validate strict data).is_valid = false) ↔
      ∃ i ∈ (PhysicsGuard.validate strict data).issues,
        i.severity = ValidationSeverity.ERROR) ∧
    (((PhysicsGuard.validate strict data).status = "accepted_with_warnings" ∧
      (PhysicsGuard.validate strict data).is_valid = true) ↔
      ((∀ i ∈ (PhysicsGuard.validate strict data).issues,
          i.severity ≠ ValidationSeverity.ERROR) ∧
        ∃ i ∈ (PhysicsGuard.validate strict data).issues,
          i.severity = ValidationSeverity.WARNING)) ∧
    (((PhysicsGuard.validate strict data).status = "accepted" ∧
      (PhysicsGuard.validate strict data).is_valid = true) ↔
      (∀ i ∈ (PhysicsGuard.validate strict data).issues,
        i.severity ≠ ValidationSeverity.ERROR ∧
        i.severity ≠ ValidationSeverity.WARNING)) ∧
    (strict = true →
      (∀ i ∈ PhysicsGuard.allIssues data, i.severity ≠ ValidationSeverity.ERROR) →
      (PhysicsGuard.validate strict data).issues =
        (PhysicsGuard.allIssues data).map PhysicsGuard.promoteWarning) := by
  unfold PhysicsGuard.validate
  by_cases hE : ∃ i ∈ PhysicsGuard.allIssues data, i.severity = ValidationSeverity.ERROR
  · rw [PhysicsGuard.classify_of_error strict _ hE]
    obtain ⟨j, hj, hjs⟩ := hE
    refine ⟨iff_of_true ⟨rfl, rfl⟩ ⟨j, hj, hjs⟩, ?_, ?_, ?_⟩
    · exact iff_of_false
        (fun h => absurd h.1 (ne_of_beq_false rfl))
        (fun h => h.1 j hj hjs)
    · exact iff_of_false
        (fun h => absurd h.1 (ne_of_beq_false rfl))
        (fun h => (h j hj).1 hjs)
    · exact fun _ hno => absurd hjs (hno j hj)
  · push_neg at hE
    by_cases hW : ∃ i ∈ PhysicsGuard.allIssues data, i.severity = ValidationSeverity.WARNING
    · obtain ⟨w, hw, hws⟩ := hW
      cases strict with
      | true =>
        rw [PhysicsGuard.classify_warn_strict _ hE ⟨w, hw, hws⟩]
        have hpw : (PhysicsGuard.promoteWarning w).severity = ValidationSeverity.ERROR := by
          rw [PhysicsGuard.promoteWarning_of_warning w hws]
        have hpmem : PhysicsGuard.promoteWarning w ∈
            (PhysicsGuard.allIssues data).map PhysicsGuard.promoteWarning :=
          List.mem_map_of_mem _ hw
        refine ⟨iff_of_true ⟨rfl, rfl⟩ ⟨_, hpmem, hpw⟩, ?_, ?_, fun _ _ => rfl⟩
        · exact iff_of_false
            (fun h => absurd h.1 (ne_of_beq_false rfl))
            (fun h => h.1 _ hpmem hpw)
        · exact iff_of_false
            (fun h => absurd h.1 (ne_of_beq_false rfl))
            (fun h => (h _ hpmem).1 hpw)
      | false =>
        rw [PhysicsGuard.classify_warn_lenient _ hE ⟨w, hw, hws⟩]
        refine ⟨?_, iff_of_true ⟨rfl, rfl⟩ ⟨hE, w, hw, hws⟩, ?_, ?_⟩
        · exact iff_of_false
            (fun h => absurd h.1 (ne_of_beq_false rfl))
            (fun ⟨j, hj, hjs⟩ => hE j hj hjs)
        · exact iff_of_false
            (fun h => absurd h.1 (ne_of_beq_false rfl))
            (fun h => (h w hw).2 hws)
        · exact fun hst _ => Bool.noConfusion hst
    · push_neg at hW
      rw [PhysicsGuard.classify_clean strict _ hE hW]
      refine ⟨?_, ?_, iff_of_true ⟨rfl, rfl⟩ (fun i hi => ⟨hE i hi, hW i hi⟩), ?_⟩
      · exact iff_of_false
          (fun h => absurd h.1 (ne_of_beq_false rfl))
          (fun ⟨j, hj, hjs⟩ => hE j hj hjs)
      · exact iff_of_false
          (fun h => absurd h.1 (ne_of_beq_false rfl))
          (fun ⟨_, j, hj, hjs⟩ => hW j hj hjs)
      · exact fun _ _ => (PhysicsGuard.map_promoteWarning_of_no_warning _ hW).symm

/-- A reading producing both an error (swapped CHW sensors) and a
warning (very poor kw_per_ton) in one pass. -/
def readingStrictMixed : Reading :=
  { chw_supply_temp := some 12, chw_return_temp := some 6, kw_per_ton := some 2 }

/-- A reading with a warning (high load while `power_kw` is absent,
which the operational-consistency rule reads as zero) and no error. -/
def readingWarnOnly : Reading := { load_percent := some 80 }

/-- A reading whose only anomaly is a supply temperature slightly
below the typical range (within 50 percent of the bound). -/
def readingSlightlyLow : Reading := { chw_supply_temp := some 3 }

lemma allIssues_readingWarnOnly : PhysicsGuard.allIssues readingWarnOnly =
    [{ severity := .WARNING
       rule_name := "power_load_consistency"
       message := "Load percent is high but power consumption is zero"
       metric_name := some "load_percent"
       actual_value := some 80
       expected_range := some "< 10 percent when power is 0"
       recommendation := some "Verify power meter is reading correctly, or load calculation has correct inputs" }] := by
  simp [PhysicsGuard.allIssues,
    PhysicsGuard.validate_thermal_directionality, PhysicsGuard.validate_absolute_bounds,
    PhysicsGuard.validate_derived_metrics, PhysicsGuard.validate_operational_consistency,
    PhysicsGuard.validate_typical_ranges, PhysicsGuard.typical_ranges, Reading.get,
    readingWarnOnly, pyMax, pyMin, pyAbs]
  try norm_num

lemma allIssues_readingSlightlyLow : PhysicsGuard.allIssues readingSlightlyLow =
    [{ severity := .INFO
       rule_name := "chw_supply_temp_typical_range"
       message := "chw_supply_temp is outside typical operating range"
       metric_name := some "chw_supply_temp"
       actual_value := some (round2 3)
       expected_range := some (toString (4:ℚ) ++ " - " ++ toString (12:ℚ))
       recommendation := some "Verify chw_supply_temp sensor accuracy and operating conditions" }] := by
  simp [PhysicsGuard.allIssues,
    PhysicsGuard.validate_thermal_directionality, PhysicsGuard.validate_absolute_bounds,
    PhysicsGuard.validate_derived_metrics, PhysicsGuard.validate_operational_consistency,
    PhysicsGuard.validate_typical_ranges, PhysicsGuard.typical_ranges, Reading.get,
    readingSlightlyLow, pyMax, pyMin, pyAbs]
  try norm_num

lemma allIssues_readingStrictMixed : PhysicsGuard.allIssues readingStrictMixed =
    [{ severity := .ERROR
       rule_name := "chw_thermal_direction"
       message := "Chilled water return must be warmer than supply (heat is absorbed from building)"
       metric_name := some "chw_return_temp"
       actual_value := some 6
       expected_range := some ("> " ++ toString (12:ℚ) ++ " C (supply temp)")
       recommendation := some "Check CHW temperature sensor wiring - supply and return may be swapped" },
     { severity := .INFO
       rule_name := "chw_return_temp_typical_range"
       message := "chw_return_temp is outside typical operating range"
       metric_name := some "chw_return_temp"
       actual_value := some (round2 6)
       expected_range := some (toString (8:ℚ) ++ " - " ++ toString (18:ℚ))
       recommendation := some "Verify chw_return_temp sensor accuracy and operating conditions" },
     { severity := .INFO
       rule_name := "kw_per_ton_typical_range"
       message := "kw_per_ton is outside typical operating range"
       metric_name := some "kw_per_ton"
       actual_value := some (round2 2)
       expected_range := some (toString ((7:ℚ)/20) ++ " - " ++ toString ((3:ℚ)/2))
       recommendation := some "Verify kw_per_ton sensor accuracy and operating conditions" },
     { severity := .WARNING
       rule_name := "kw_per_ton_very_poor"
       message := "kW/ton is very high - poor efficiency"
       metric_name := some "kw_per_ton"
       actual_value := some (round3 2)
       expected_range := some "0.5 - 1.2 kW/ton typical"
       recommendation := some "Investigate chiller performance - possible fouling, refrigerant, or mechanical issues" }] := by
  simp [PhysicsGuard.allIssues,
    PhysicsGuard.validate_thermal_directionality, PhysicsGuard.validate_absolute_bounds,
    PhysicsGuard.validate_derived_metrics, PhysicsGuard.validate_operational_consistency,
    PhysicsGuard.validate_typical_ranges, PhysicsGuard.typical_ranges, Reading.get,
    readingStrictMixed, pyMax, pyMin, pyAbs]
  try norm_num

/-- Counterexample for C2 as stated: in strict mode, when an error is
already present, the returned verdict still carries a warning-severity
issue — the warnings are NOT promoted to errors in that case. -/
theorem C2_counterexample :
    (PhysicsGuard.validate true readingStrictMixed).status = "rejected" ∧
    ∃ i ∈ (PhysicsGuard.validate true readingStrictMixed).issues,
      i.severity = ValidationSeverity.WARNING := by
  have hE : ∃ i ∈ PhysicsGuard.allIssues readingStrictMixed,
      i.severity = ValidationSeverity.ERROR := by
    rw [allIssues_readingStrictMixed]
    exact ⟨_, List.mem_cons_self _ _, rfl⟩
  have hW : ∃ i ∈ PhysicsGuard.allIssues readingStrictMixed,
      i.severity = ValidationSeverity.WARNING := by
    rw [allIssues_readingStrictMixed]
    simp
  unfold PhysicsGuard.validate
  rw [PhysicsGuard.classify_of_error true _ hE]
  exact ⟨rfl, hW⟩

/-- Witness for C2 (amended) at a concrete warning-only reading. -/
theorem C2_verdict_classification_witness :
    (∀ i ∈ PhysicsGuard.allIssues readingWarnOnly,
      i.severity ≠ ValidationSeverity.ERROR) ∧
    (PhysicsGuard.validate true readingWarnOnly).issues =
      (PhysicsGuard.allIssues readingWarnOnly).map PhysicsGuard.promoteWarning :=
  have hne : ∀ i ∈ PhysicsGuard.allIssues readingWarnOnly,
      i.severity ≠ ValidationSeverity.ERROR := by
    rw [allIssues_readingWarnOnly]; simp
  ⟨hne, (C2_verdict_classification true readingWarnOnly).2.2.2 rfl hne⟩

/-- C5 (amended) — the operational-consistency rule family reads
`power_kw` via `data.get("power_kw", 0)`, so an ABSENT `power_kw`
behaves as zero: the `power_load_consistency` warning fires exactly
when `power_kw` is absent-or-zero and `load_percent` is present and
above 10, and the `power_vibration_consistency` warning fires exactly
when `power_kw` is absent-or-zero and vibration (also defaulted to 0)
exceeds 5; every issue this family emits is a warning. -/
theorem C5_operational_consistency_power_default (data : Reading) :
    ((∃ i ∈ PhysicsGuard.validate_operational_consistency data,
        i.rule_name = "power_load_consistency") ↔
      (data.power_kw.getD 0 = 0 ∧ ∃ lp, data.load_percent = some lp ∧ 10 < lp)) ∧
    ((∃ i ∈ PhysicsGuard.validate_operational_consistency data,
        i.rule_name = "power_vibration_consistency") ↔
      (data.power_kw.getD 0 = 0 ∧ 5 < data.vibration_rms.getD 0)) ∧
    (∀ i ∈ PhysicsGuard.validate_operational_consistency data,
      i.severity = ValidationSeverity.WARNING) := by
  unfold PhysicsGuard.validate_operational_consistency
  cases hl : data.load_percent with
  | none =>
    by_cases hp : data.power_kw.getD 0 = 0 <;>
      by_cases hv : (5:ℚ) < data.vibration_rms.getD 0 <;>
      simp [hl, hp, hv]
  | some lp =>
    by_cases hp : data.power_kw.getD 0 = 0 <;>
      by_cases hlp : (10:ℚ) < lp <;>
      by_cases hv : (5:ℚ) < data.vibration_rms.getD 0 <;>
      simp [hl, hp, hlp, hv]

/-- Counterexample for C5 as stated: for a reading whose `power_kw`
field is ABSENT (load_percent = 80 only), `PhysicsGuard.validate`
nevertheless emits the `power_load_consistency` warning, because the
rule reads `power_kw` with a default of 0. -/
theorem C5_counterexample :
    readingWarnOnly.power_kw = none ∧
    ∃ i ∈ (PhysicsGuard.validate false readingWarnOnly).issues,
      i.rule_name = "power_load_consistency" ∧
      i.severity = ValidationSeverity.WARNING := by
  have hE : ∀ i ∈ PhysicsGuard.allIssues readingWarnOnly,
      i.severity ≠ ValidationSeverity.ERROR := by
    rw [allIssues_readingWarnOnly]; simp
  have hW : ∃ i ∈ PhysicsGuard.allIssues readingWarnOnly,
      i.severity = ValidationSeverity.WARNING := by
    rw [allIssues_readingWarnOnly]; simp
  unfold PhysicsGuard.validate
  rw [PhysicsGuard.classify_warn_lenient _ hE hW]
  refine ⟨rfl, ?_⟩
  rw [allIssues_readingWarnOnly]
  simp

/-- C6 — a reading that is accepted-with-warnings in normal mode is
rejected in strict mode, with the same issue list except that each
warning is promoted to an error; `promoteWarning` changes nothing but
the severity. -/
theorem C6_strict_mode_rejects (data : Reading)
    (h : (PhysicsGuard.validate false data).status = "accepted_with_warnings") :
    (PhysicsGuard.validate true data).status = "rejected" ∧
    (PhysicsGuard.validate true data).is_valid = false ∧
    (PhysicsGuard.validate true data).issues =
      (PhysicsGuard.validate false data).issues.map PhysicsGuard.promoteWarning ∧
    (∀ i : ValidationIssue,
      (PhysicsGuard.promoteWarning i).rule_name = i.rule_name ∧
      (PhysicsGuard.promoteWarning i).message = i.message ∧
      (PhysicsGuard.promoteWarning i).metric_name = i.metric_name ∧
      (PhysicsGuard.promoteWarning i).actual_value = i.actual_value ∧
      (PhysicsGuard.promoteWarning i).expected_range = i.expected_range ∧
      (PhysicsGuard.promoteWarning i).recommendation = i.recommendation ∧
      (i.severity = ValidationSeverity.WARNING →
        (PhysicsGuard.promoteWarning i).severity = ValidationSeverity.ERROR) ∧
      (i.severity ≠ ValidationSeverity.WARNING →
        (PhysicsGuard.promoteWarning i).severity = i.severity)) := by
  have hfields : ∀ i : ValidationIssue,
      (PhysicsGuard.promoteWarning i).rule_name = i.rule_name ∧
      (PhysicsGuard.promoteWarning i).message = i.message ∧
      (PhysicsGuard.promoteWarning i).metric_name = i.metric_name ∧
      (PhysicsGuard.promoteWarning i).actual_value = i.actual_value ∧
      (PhysicsGuard.promoteWarning i).expected_range = i.expected_range ∧
      (PhysicsGuard.promoteWarning i).recommendation = i.recommendation ∧
      (i.severity = ValidationSeverity.WARNING →
        (PhysicsGuard.promoteWarning i).severity = ValidationSeverity.ERROR) ∧
      (i.severity ≠ ValidationSeverity.WARNING →
        (PhysicsGuard.promoteWarning i).severity = i.severity) := by
    intro i
    by_cases hs : i.severity = ValidationSeverity.WARNING
    · rw [PhysicsGuard.promoteWarning_of_warning i hs]
      exact ⟨rfl, rfl, rfl, rfl, rfl, rfl, fun _ => rfl, fun hn => absurd hs hn⟩
    · rw [PhysicsGuard.promoteWarning_of_not_warning i hs]
      exact ⟨rfl, rfl, rfl, rfl, rfl, rfl, fun hw => absurd hw hs, fun _ => rfl⟩
  by_cases hE : ∃ i ∈ PhysicsGuard.allIssues data, i.severity = ValidationSeverity.ERROR
  · exfalso
    have hrw := PhysicsGuard.classify_of_error false _ hE
    unfold PhysicsGuard.validate at h
    rw [hrw] at h
    exact absurd h (ne_of_beq_false rfl)
  · push_neg at hE
    by_cases hW : ∃ i ∈ PhysicsGuard.allIssues data, i.severity = ValidationSeverity.WARNING
    · have h1 := PhysicsGuard.classify_warn_strict _ hE hW
      have h2 := PhysicsGuard.classify_warn_lenient _ hE hW
      unfold PhysicsGuard.validate
      rw [h1, h2]
      exact ⟨rfl, rfl, rfl, hfields⟩
    · exfalso
      push_neg at hW
      have hrw := PhysicsGuard.classify_clean false _ hE hW
      unfold PhysicsGuard.validate at h
      rw [hrw] at h
      exact absurd h (ne_of_beq_false rfl)

/-- Witness for C6 at a concrete reading accepted with warnings. -/
theorem C6_strict_mode_rejects_witness :
    (PhysicsGuard.validate false readingWarnOnly).status = "accepted_with_warnings" ∧
    (PhysicsGuard.validate true readingWarnOnly).status = "rejected" ∧
    (PhysicsGuard.validate true readingWarnOnly).is_valid = false ∧
    (PhysicsGuard.validate true readingWarnOnly).issues =
      (PhysicsGuard.validate false readingWarnOnly).issues.map PhysicsGuard.promoteWarning :=
  have hAWW : (PhysicsGuard.validate false readingWarnOnly).status =
      "accepted_with_warnings" := by
    have hE : ∀ i ∈ PhysicsGuard.allIssues readingWarnOnly,
        i.severity ≠ ValidationSeverity.ERROR := by
      rw [allIssues_readingWarnOnly]; simp
    have hW : ∃ i ∈ PhysicsGuard.allIssues readingWarnOnly,
        i.severity = ValidationSeverity.WARNING := by
      rw [allIssues_readingWarnOnly]; simp
    unfold PhysicsGuard.validate
    rw [PhysicsGuard.classify_warn_lenient _ hE hW]
  have hmain := C6_strict_mode_rejects readingWarnOnly hAWW
  ⟨hAWW, hmain.1, hmain.2.1, hmain.2.2.1⟩

/-- C10 — an accepted verdict does not imply an empty issue list: a
reading with `chw_supply_temp = 3` (below the typical range by only a
quarter of the bound) is accepted as valid while the verdict carries a
non-empty, all-info issue list. -/
theorem C10_accepted_with_info :
    (PhysicsGuard.validate false readingSlightlyLow).status = "accepted" ∧
    (PhysicsGuard.validate false readingSlightlyLow).is_valid = true ∧
    (PhysicsGuard.validate false readingSlightlyLow).issues ≠ [] ∧
    ∀ i ∈ (PhysicsGuard.validate false readingSlightlyLow).issues,
      i.severity = ValidationSeverity.INFO := by
  have hE : ∀ i ∈ PhysicsGuard.allIssues readingSlightlyLow,
      i.severity ≠ ValidationSeverity.ERROR := by
    rw [allIssues_readingSlightlyLow]; simp
  have hW : ∀ i ∈ PhysicsGuard.allIssues readingSlightlyLow,
      i.severity ≠ ValidationSeverity.WARNING := by
    rw [allIssues_readingSlightlyLow]; simp
  unfold PhysicsGuard.validate
  rw [PhysicsGuard.classify_clean false _ hE hW]
  refine ⟨rfl, rfl, ?_, ?_⟩
  · rw [allIssues_readingSlightlyLow]; simp
  · rw [allIssues_readingSlightlyLow]; simp

/-! ## Claim theorems for the physics calculator -/

/-- C8 — floor invariants: `calculate_cooling_tons` always returns at
least 0.1 and returns exactly 0.1 at `delta_t = 0` for any flow;
`calculate_approach_temperature` never returns a negative value. -/
theorem C8_floor_invariants :
    (∀ delta_t : ℚ, ∀ flow : Option ℚ,
      1/10 ≤ PhysicsCalculator.calculate_cooling_tons delta_t flow) ∧
    (∀ flow : Option ℚ, PhysicsCalculator.calculate_cooling_tons 0 flow = 1/10) ∧
    (∀ cdw_outlet_temp : ℚ, ∀ refrigerant_sat_temp : Option ℚ,
      0 ≤ PhysicsCalculator.calculate_approach_temperature cdw_outlet_temp refrigerant_sat_temp) := by
  refine ⟨?_, ?_, ?_⟩
  · intro delta_t flow
    simp only [PhysicsCalculator.calculate_cooling_tons, pyMax]
    split
    · exact le_refl _
    · exact le_of_not_lt (by assumption)
  · intro flow
    simp only [PhysicsCalculator.calculate_cooling_tons, pyMax]
    norm_num
  · intro cdw_outlet_temp refrigerant_sat_temp
    simp only [PhysicsCalculator.calculate_approach_temperature, pyMax]
    split
    · exact le_refl _
    · exact le_of_not_lt (by assumption)

/-- C7 — COP / kW-per-ton duality: whenever power is positive and the
cooling-tons value is at least 0.1, `calculate_cop` equals
3.517 divided by `calculate_kw_per_ton` (exactly, over ℚ). -/
theorem C7_cop_duality (delta_t power_kw : ℚ) (chw_flow_gpm : Option ℚ)
    (hp : 0 < power_kw)
    (ht : 1/10 ≤ PhysicsCalculator.calculate_cooling_tons delta_t chw_flow_gpm) :
    PhysicsCalculator.calculate_cop delta_t power_kw chw_flow_gpm =
      (3.517 : ℚ) / PhysicsCalculator.calculate_kw_per_ton power_kw delta_t chw_flow_gpm := by
  have hKW : PhysicsCalculator.KW_PER_TON = (3.517 : ℚ) := by
    norm_num [PhysicsCalculator.KW_PER_TON]
  have htpos : (0:ℚ) < PhysicsCalculator.calculate_cooling_tons delta_t chw_flow_gpm :=
    lt_of_lt_of_le (by norm_num) ht
  unfold PhysicsCalculator.calculate_cop PhysicsCalculator.calculate_kw_per_ton
  rw [if_neg (not_le.mpr hp), if_neg (not_le.mpr hp), if_neg (not_lt.mpr ht)]
  rw [hKW]
  field_simp
  ring

/-- Witness for C7 at `delta_t = 5`, default flow, `power_kw = 100`. -/
theorem C7_cop_duality_witness :
    (0:ℚ) < 100 ∧
    1/10 ≤ PhysicsCalculator.calculate_cooling_tons 5 none ∧
    PhysicsCalculator.calculate_cop 5 100 none =
      (3.517 : ℚ) / PhysicsCalculator.calculate_kw_per_ton 100 5 none :=
  have h1 : (0:ℚ) < 100 := by norm_num
  have h2 : 1/10 ≤ PhysicsCalculator.calculate_cooling_tons 5 none := by
    norm_num [PhysicsCalculator.calculate_cooling_tons, pyMax,
      PhysicsCalculator.DEFAULT_CHW_FLOW_GPM, PhysicsCalculator.GPM_FACTOR,
      PhysicsCalculator.BTU_PER_TON_HOUR]
  ⟨h1, h2, C7_cop_duality 5 100 none h1 h2⟩

/-! ## Helper lemmas about the health-score engine -/

namespace HealthScoreEngine

lemma scoreBreakdown_nil (metrics : String → Option ℚ) :
    scoreBreakdown [] metrics = [] := rfl

lemma scoreBreakdown_cons (nw : String × ℚ) (l : List (String × ℚ))
    (metrics : String → Option ℚ) :
    scoreBreakdown (nw :: l) metrics =
      match metrics nw.1 with
      | some v => mkMetricScore nw.1 nw.2 v :: scoreBreakdown l metrics
      | none => scoreBreakdown l metrics := by
  cases h : metrics nw.1 <;> simp [scoreBreakdown, h]

lemma contribution_sum (weights : List (String × ℚ)) (metrics : String → Option ℚ) :
    ((scoreBreakdown weights metrics).map (fun m => m.weighted_contribution)).sum =
      (weights.map (fun nw =>
        match metrics nw.1 with
        | some v => (score_metric nw.1 v).1 * nw.2
        | none => 0)).sum := by
  induction weights with
  | nil => rfl
  | cons a l ih =>
    rw [scoreBreakdown_cons]
    cases h : metrics a.1 <;> simp [h, ih, mkMetricScore]

lemma weight_sum (weights : List (String × ℚ)) (metrics : String → Option ℚ) :
    ((scoreBreakdown weights metrics).map (fun m => m.weight)).sum =
      (weights.map (fun nw =>
        match metrics nw.1 with
        | some _ => nw.2
        | none => 0)).sum := by
  induction weights with
  | nil => rfl
  | cons a l ih =>
    rw [scoreBreakdown_cons]
    cases h : metrics a.1 <;> simp [h, ih, mkMetricScore]

lemma weight_sum_nonneg (weights : List (String × ℚ)) (metrics : String → Option ℚ)
    (hpos : ∀ nw ∈ weights, 0 < nw.2) :
    0 ≤ ((scoreBreakdown weights metrics).map (fun m => m.weight)).sum := by
  induction weights with
  | nil => simp [scoreBreakdown_nil]
  | cons a l ih =>
    rw [scoreBreakdown_cons]
    have ha := hpos a (List.mem_cons_self a l)
    have ihl := ih (fun nw h => hpos nw (List.mem_cons_of_mem a h))
    cases h : metrics a.1 with
    | none => exact ihl
    | some v =>
      simp only [List.map_cons, List.sum_cons]
      have : (0:ℚ) ≤ (mkMetricScore a.1 a.2 v).weight := le_of_lt ha
      linarith

lemma weight_sum_pos (weights : List (String × ℚ)) (metrics : String → Option ℚ)
    (hpos : ∀ nw ∈ weights, 0 < nw.2)
    (hne : scoreBreakdown weights metrics ≠ []) :
    0 < ((scoreBreakdown weights metrics).map (fun m => m.weight)).sum := by
  induction weights with
  | nil => exact absurd rfl hne
  | cons a l ih =>
    rw [scoreBreakdown_cons] at *
    have ha := hpos a (List.mem_cons_self a l)
    have hposl : ∀ nw ∈ l, 0 < nw.2 := fun nw h => hpos nw (List.mem_cons_of_mem a h)
    cases h : metrics a.1 with
    | none =>
      rw [h] at hne
      exact ih hposl hne
    | some v =>
      show 0 < (List.map (fun m => m.weight)
        (mkMetricScore a.1 a.2 v :: scoreBreakdown l metrics)).sum
      simp only [List.map_cons, List.sum_cons]
      have hnn := weight_sum_nonneg l metrics hposl
      have hw : (mkMetricScore a.1 a.2 v).weight = a.2 := rfl
      rw [hw]
      linarith

lemma scoreBreakdown_eq_nil_iff (weights : List (String × ℚ)) (metrics : String → Option ℚ) :
    scoreBreakdown weights metrics = [] ↔ ∀ nw ∈ weights, metrics nw.1 = none := by
  simp [scoreBreakdown, List.filterMap_eq_nil]

lemma insertByScore_cons (m x : MetricScore) (xs : List MetricScore) :
    insertByScore m (x :: xs) =
      if m.normalized_score ≤ x.normalized_score then m :: x :: xs
      else x :: insertByScore m xs := rfl

lemma insertByScore_ne_nil (m : MetricScore) (l : List MetricScore) :
    insertByScore m l ≠ [] := by
  cases l with
  | nil => simp [insertByScore]
  | cons x xs =>
    unfold insertByScore
    split <;> simp

lemma sortByScore_eq_nil_iff (l : List MetricScore) :
    sortByScore l = [] ↔ l = [] := by
  cases l with
  | nil => simp [sortByScore]
  | cons a as =>
    simp only [sortByScore]
    exact ⟨fun h => absurd h (insertByScore_ne_nil a (sortByScore as)), fun h => by simp at h⟩

lemma sortByScore_head_min (l : List MetricScore) (hl : l ≠ []) :
    ∃ w t, sortByScore l = w :: t ∧ w ∈ l ∧
      ∀ m ∈ l, w.normalized_score ≤ m.normalized_score := by
  induction l with
  | nil => exact absurd rfl hl
  | cons a as ih =>
    by_cases has : as = []
    · subst has
      refine ⟨a, [], rfl, List.mem_cons_self a [], ?_⟩
      intro m hm
      rw [List.mem_singleton] at hm
      subst hm
      exact le_refl _
    · obtain ⟨w, t, hsort, hmem, hmin⟩ := ih has
      by_cases hle : a.normalized_score ≤ w.normalized_score
      · refine ⟨a, w :: t, ?_, List.mem_cons_self a as, ?_⟩
        · show insertByScore a (sortByScore as) = a :: w :: t
          rw [hsort, insertByScore_cons, if_pos hle]
        · intro m hm
          rcases List.mem_cons.mp hm with hma | hmas
          · subst hma; exact le_refl _
          · exact le_trans hle (hmin m hmas)
      · have hwa : w.normalized_score ≤ a.normalized_score := le_of_not_le hle
        refine ⟨w, insertByScore a t, ?_, List.mem_cons_of_mem a hmem, ?_⟩
        · show insertByScore a (sortByScore as) = w :: insertByScore a t
          rw [hsort, insertByScore_cons, if_neg hle]
        · intro m hm
          rcases List.mem_cons.mp hm with hma | hmas
          · subst hma; exact hwa
          · exact hmin m hmas

lemma calculate_overall_score (weights : List (String × ℚ)) (metrics : String → Option ℚ) :
    (calculate weights metrics).overall_score =
      (if 0 < ((scoreBreakdown weights metrics).map (fun m => m.weight)).sum
       then ((scoreBreakdown weights metrics).map (fun m => m.weighted_contribution)).sum /
            ((scoreBreakdown weights metrics).map (fun m => m.weight)).sum
       else 50) := by
  unfold calculate
  rcases hsort : sortByScore (scoreBreakdown weights metrics) with _ | ⟨worst, rest⟩ <;>
    simp only [hsort] <;>
    first
      | rfl
      | (split <;> rfl)

lemma calculate_breakdown (weights : List (String × ℚ)) (metrics : String → Option ℚ) :
    (calculate weights metrics).breakdown = sortByScore (scoreBreakdown weights metrics) := by
  unfold calculate
  rcases hsort : sortByScore (scoreBreakdown weights metrics) with _ | ⟨worst, rest⟩ <;>
    simp only [hsort] <;>
    first
      | rfl
      | (split <;> rfl)

lemma calculate_primary_concern (weights : List (String × ℚ)) (metrics : String → Option ℚ) :
    (calculate weights metrics).primary_concern =
      (match sortByScore (scoreBreakdown weights metrics) with
       | [] => none
       | worst :: _ =>
         if worst.normalized_score < 70 then some worst.metric_name else none) := by
  unfold calculate
  rcases hsort : sortByScore (scoreBreakdown weights metrics) with _ | ⟨worst, rest⟩ <;>
    simp only [hsort] <;>
    first
      | rfl
      | (split <;> rfl)

end HealthScoreEngine

/-! ## Claim theorems for the health-score engine -/

/-- C3 — score renormalization: for any metrics map, the overall score
is the sum of the weighted contributions (score × weight) divided by
the sum of the weights of the metrics present in both the map and the
default weight configuration; when no configured metric is present the
engine returns a neutral 50 with an empty breakdown. -/
theorem C3_score_renormalization (metrics : String → Option ℚ) :
    (HealthScoreEngine.scoreBreakdown HealthScoreEngine.defaultWeights metrics ≠ [] →
      (HealthScoreEngine.calculate HealthScoreEngine.defaultWeights metrics).overall_score =
        (HealthScoreEngine.defaultWeights.map (fun nw =>
          match metrics nw.1 with
          | some v => (HealthScoreEngine.score_metric nw.1 v).1 * nw.2
          | none => 0)).sum /
        (HealthScoreEngine.defaultWeights.map (fun nw =>
          match metrics nw.1 with
          | some _ => nw.2
          | none => 0)).sum) ∧
    ((∀ nw ∈ HealthScoreEngine.defaultWeights, metrics nw.1 = none) →
      (HealthScoreEngine.calculate HealthScoreEngine.defaultWeights metrics).overall_score = 50 ∧
      (HealthScoreEngine.calculate HealthScoreEngine.defaultWeights metrics).breakdown = []) := by
  have hpos0 : ∀ nw ∈ HealthScoreEngine.defaultWeights, (0:ℚ) < nw.2 := by
    intro nw h
    simp only [HealthScoreEngine.defaultWeights, List.mem_cons, List.not_mem_nil,
      or_false] at h
    rcases h with h | h | h | h | h <;> subst h <;> norm_num
  constructor
  · intro hne
    have hsum := HealthScoreEngine.weight_sum_pos HealthScoreEngine.defaultWeights metrics hpos0 hne
    rw [HealthScoreEngine.calculate_overall_score, if_pos hsum,
      HealthScoreEngine.contribution_sum, HealthScoreEngine.weight_sum]
  · intro hall
    have hnil : HealthScoreEngine.scoreBreakdown HealthScoreEngine.defaultWeights metrics = [] :=
      (HealthScoreEngine.scoreBreakdown_eq_nil_iff _ _).mpr hall
    constructor
    · rw [HealthScoreEngine.calculate_overall_score, hnil]
      simp
    · rw [HealthScoreEngine.calculate_breakdown, hnil]
      rfl

/-- The metrics map with only `vibration_rms = 20` present. -/
def metricsVibOnly : String → Option ℚ :=
  fun name => if name = "vibration_rms" then some 20 else none

/-- The empty metrics map. -/
def metricsEmpty : String → Option ℚ := fun _ => none

/-- Witness for C3 at a one-metric map and at the empty map. -/
theorem C3_score_renormalization_witness :
    (HealthScoreEngine.scoreBreakdown HealthScoreEngine.defaultWeights metricsVibOnly ≠ [] ∧
      (HealthScoreEngine.calculate HealthScoreEngine.defaultWeights metricsVibOnly).overall_score =
        (HealthScoreEngine.defaultWeights.map (fun nw =>
          match metricsVibOnly nw.1 with
          | some v => (HealthScoreEngine.score_metric nw.1 v).1 * nw.2
          | none => 0)).sum /
        (HealthScoreEngine.defaultWeights.map (fun nw =>
          match metricsVibOnly nw.1 with
          | some _ => nw.2
          | none => 0)).sum) ∧
    ((∀ nw ∈ HealthScoreEngine.defaultWeights, metricsEmpty nw.1 = none) ∧
      (HealthScoreEngine.calculate HealthScoreEngine.defaultWeights metricsEmpty).overall_score = 50 ∧
      (HealthScoreEngine.calculate HealthScoreEngine.defaultWeights metricsEmpty).breakdown = []) :=
  have h1 : HealthScoreEngine.scoreBreakdown HealthScoreEngine.defaultWeights metricsVibOnly ≠ [] := by
    simp [HealthScoreEngine.scoreBreakdown, HealthScoreEngine.defaultWeights, metricsVibOnly]
  have h2 : ∀ nw ∈ HealthScoreEngine.defaultWeights, metricsEmpty nw.1 = none :=
    fun _ _ => rfl
  ⟨⟨h1, (C3_score_renormalization metricsVibOnly).1 h1⟩,
   ⟨h2, (C3_score_renormalization metricsEmpty).2 h2⟩⟩

/-- C9 — primary-concern selection: whenever at least one configured
metric is present, there is a present metric `w` of minimal normalized
score such that `primary_concern` is `w`'s name exactly when that
lowest score is below 70, and `none` otherwise. -/
theorem C9_primary_concern (metrics : String → Option ℚ)
    (hne : HealthScoreEngine.scoreBreakdown HealthScoreEngine.defaultWeights metrics ≠ []) :
    ∃ w ∈ HealthScoreEngine.scoreBreakdown HealthScoreEngine.defaultWeights metrics,
      (∀ m ∈ HealthScoreEngine.scoreBreakdown HealthScoreEngine.defaultWeights metrics,
        w.normalized_score ≤ m.normalized_score) ∧
      (HealthScoreEngine.calculate HealthScoreEngine.defaultWeights metrics).primary_concern =
        (if w.normalized_score < 70 then some w.metric_name else none) := by
  obtain ⟨w, t, hsort, hmem, hmin⟩ := HealthScoreEngine.sortByScore_head_min _ hne
  refine ⟨w, hmem, hmin, ?_⟩
  rw [HealthScoreEngine.calculate_primary_concern, hsort]

/-- Witness for C9 at a map whose only metric scores critically. -/
theorem C9_primary_concern_witness :
    HealthScoreEngine.scoreBreakdown HealthScoreEngine.defaultWeights metricsVibOnly ≠ [] ∧
    ∃ w ∈ HealthScoreEngine.scoreBreakdown HealthScoreEngine.defaultWeights metricsVibOnly,
      (∀ m ∈ HealthScoreEngine.scoreBreakdown HealthScoreEngine.defaultWeights metricsVibOnly,
        w.normalized_score ≤ m.normalized_score) ∧
      (HealthScoreEngine.calculate HealthScoreEngine.defaultWeights metricsVibOnly).primary_concern =
        (if w.normalized_score < 70 then some w.metric_name else none) :=
  have h1 : HealthScoreEngine.scoreBreakdown HealthScoreEngine.defaultWeights metricsVibOnly ≠ [] := by
    simp [HealthScoreEngine.scoreBreakdown, HealthScoreEngine.defaultWeights, metricsVibOnly]
  ⟨h1, C9_primary_concern metricsVibOnly h1⟩

/-! ## Claim theorems for the scenario engine -/

lemma lookup_apply_scenario (s : FailureScenario) (progress : ℚ) (day : ℕ)
    (data : List (String × Value)) (k : String) :
    (ChillerDataGenerator.apply_scenario s data progress day).lookup k =
      (data.lookup k).map (fun v =>
        match s.modifiers.lookup k with
        | none => v
        | some _ =>
          match v with
          | .vInt n => .vInt (pyRound (s.apply_modifier k (n:ℚ) progress day))
          | .vFloat q => .vFloat (round2 (s.apply_modifier k q progress day))) := by
  induction data with
  | nil => rfl
  | cons kv rest ih =>
    rcases kv with ⟨k', v'⟩
    simp only [ChillerDataGenerator.apply_scenario, List.map_cons] at ih ⊢
    cases hm : s.modifiers.lookup k' with
    | none =>
      simp only [hm, List.lookup]
      cases hb : (k == k') with
      | true =>
        have hk : k = k' := eq_of_beq hb
        subst hk
        rw [hm]
        rfl
      | false =>
        simpa using ih
    | some m =>
      cases v' with
      | vInt n =>
        simp only [hm, List.lookup]
        cases hb : (k == k') with
        | true =>
          have hk : k = k' := eq_of_beq hb
          subst hk
          rw [hm]
          rfl
        | false =>
          simpa using ih
      | vFloat q =>
        simp only [hm, List.lookup]
        cases hb : (k == k') with
        | true =>
          have hk : k = k' := eq_of_beq hb
          subst hk
          rw [hm]
          rfl
        | false =>
          simpa using ih

/-- C4 (amended) — inside the active window (`start ≤ day` and
`day − start < duration`), every generated reading has, for each
metric with a modifier, its value replaced by
`modifier(base, progress, elapsed)` ROUNDED (2 decimals for floats,
nearest int for ints), where `progress = elapsed / duration ∈ [0, 1)`;
metrics without a modifier keep their base values. -/
theorem C4_scenario_application (s : FailureScenario)
    (scenario_start_day day_number : ℕ)
    (data : List (String × Value)) (k : String)
    (h1 : scenario_start_day ≤ day_number)
    (h2 : day_number - scenario_start_day < s.duration_days) :
    (0:ℚ) ≤ ((day_number - scenario_start_day : ℕ) : ℚ) / (s.duration_days : ℚ) ∧
    ((day_number - scenario_start_day : ℕ) : ℚ) / (s.duration_days : ℚ) < 1 ∧
    (ChillerDataGenerator.applyScenarioForDay (some s) scenario_start_day day_number data).lookup k =
      (data.lookup k).map (fun v =>
        match s.modifiers.lookup k with
        | none => v
        | some _ =>
          match v with
          | .vInt n => .vInt (pyRound (s.apply_modifier k (n:ℚ)
              (((day_number - scenario_start_day : ℕ) : ℚ) / (s.duration_days : ℚ))
              (day_number - scenario_start_day)))
          | .vFloat q => .vFloat (round2 (s.apply_modifier k q
              (((day_number - scenario_start_day : ℕ) : ℚ) / (s.duration_days : ℚ))
              (day_number - scenario_start_day)))) := by
  have hdur : 0 < s.duration_days := lt_of_le_of_lt (Nat.zero_le _) h2
  have hprog0 : (0:ℚ) ≤ ((day_number - scenario_start_day : ℕ) : ℚ) / (s.duration_days : ℚ) :=
    div_nonneg (Nat.cast_nonneg _) (Nat.cast_nonneg _)
  have hprog1 : ((day_number - scenario_start_day : ℕ) : ℚ) / (s.duration_days : ℚ) < 1 := by
    rw [div_lt_one (by exact_mod_cast hdur)]
    exact_mod_cast h2
  refine ⟨hprog0, hprog1, ?_⟩
  show (if scenario_start_day ≤ day_number then
      (if day_number - scenario_start_day < s.duration_days then
        ChillerDataGenerator.apply_scenario s data
          (((day_number - scenario_start_day : ℕ) : ℚ) / (s.duration_days : ℚ))
          (day_number - scenario_start_day)
      else data)
    else data).lookup k = _
  rw [if_pos h1, if_pos h2]
  exact lookup_apply_scenario s _ _ data k

/-- A small test scenario whose single modifier adds the progress to
the base value of metric `x`. -/
def scenarioTest : FailureScenario :=
  { name := "Test Drift"
    failure_type := .TUBE_FOULING
    description := "test scenario"
    duration_days := 3
    story := ""
    modifiers := [("x", fun base progress _ => base + progress)] }

/-- Counterexample for C4 as stated: on day 1 of `scenarioTest`
(progress 1/3, base value 0) the stored value is `round(1/3, 2) =
0.33`, not the raw modifier output `1/3` — the generator rounds the
modified value to 2 decimals. -/
theorem C4_counterexample :
    (ChillerDataGenerator.applyScenarioForDay (some scenarioTest) 0 1
        [("x", Value.vFloat 0)]).lookup "x" =
      some (Value.vFloat (33/100)) ∧
    ((0:ℚ) + (1:ℚ)/(3:ℚ)) ≠ (33/100 : ℚ) := by
  constructor
  · simp only [ChillerDataGenerator.applyScenarioForDay, ChillerDataGenerator.apply_scenario,
      scenarioTest, FailureScenario.apply_modifier]
    norm_num [List.lookup, round2, pyRound]
  · norm_num

/-- Witness for C4 at `scenarioTest`, start day 2, current day 3. -/
theorem C4_scenario_application_witness :
    ((2:ℕ) ≤ 3 ∧ (3:ℕ) - 2 < scenarioTest.duration_days) ∧
    ((0:ℚ) ≤ (((3:ℕ) - 2 : ℕ) : ℚ) / (scenarioTest.duration_days : ℚ) ∧
     (((3:ℕ) - 2 : ℕ) : ℚ) / (scenarioTest.duration_days : ℚ) < 1 ∧
     (ChillerDataGenerator.applyScenarioForDay (some scenarioTest) 2 3
         [("x", Value.vFloat 1)]).lookup "x" =
       ([("x", Value.vFloat 1)].lookup "x").map (fun v =>
         match scenarioTest.modifiers.lookup "x" with
         | none => v
         | some _ =>
           match v with
           | .vInt n => .vInt (pyRound (scenarioTest.apply_modifier "x" (n:ℚ)
               ((((3:ℕ) - 2 : ℕ) : ℚ) / (scenarioTest.duration_days : ℚ)) ((3:ℕ) - 2)))
           | .vFloat q => .vFloat (round2 (scenarioTest.apply_modifier "x" q
               ((((3:ℕ) - 2 : ℕ) : ℚ) / (scenarioTest.duration_days : ℚ)) ((3:ℕ) - 2))))) :=
  have ha : (2:ℕ) ≤ 3 := by norm_num
  have hb : (3:ℕ) - 2 < scenarioTest.duration_days := by norm_num [scenarioTest]
  ⟨⟨ha, hb⟩, C4_scenario_application scenarioTest 2 3 [("x", Value.vFloat 1)] "x" ha hb⟩
